import Mathlib

/-!
Verification of the fintrend Prediction & Alert Synthesis Engine.

The definitions below are a shallow embedding of the relevant parts of
`src/FrontEnd/src/pages/StockPrediction.jsx` and
`src/FrontEnd/src/pages/Alerts.jsx`.  JavaScript numbers are modelled as
rationals (`ℚ`), except where `Math.sqrt` forces the reals; JavaScript
`null` results are modelled by `Option`.  Array indices that JavaScript
functions receive may be negative (`Array.prototype.slice` semantics), so
indicator periods are modelled as integers (`ℤ`).
-/

namespace FinTrend

/-! ### Prediction Orchestrator: timeframe and horizon (StockPrediction.jsx) -/

/-- The model families offered by the model-type select control. -/
inductive ModelType
  | lstm
  | gru
  | cnn
  | rnn
  | timesnet
  | transformer
  deriving DecidableEq

/-- The timeframe tokens offered by the timeframe select control; `other`
stands for any string not in the table, handled by the switch default. -/
inductive Timeframe
  | d1
  | d3
  | w1
  | w2
  | m1
  | other
  deriving DecidableEq

/-- Function `getPredictionLengthForTimeframe` (StockPrediction.jsx lines 56-71). -/
def getPredictionLengthForTimeframe (tf : Timeframe) : ℕ :=
  match tf with
  | .d1 => 1
  | .d3 => 3
  | .w1 => 7
  | .w2 => 14
  | .m1 => 30
  | .other => 3

/-- The per-family horizon clamp applied in `runPrediction`
(StockPrediction.jsx lines 113-120): TIMESNET is fixed at 3 steps,
TRANSFORMER is clamped to `min(3, max(1, requested))`. -/
def resolveHorizon (model : ModelType) (tf : Timeframe) : ℕ :=
  let requested := getPredictionLengthForTimeframe tf
  match model with
  | .timesnet => 3
  | .transformer => min 3 (max 1 requested)
  | _ => requested

/-! ### Prediction Orchestrator: derived trend (StockPrediction.jsx lines 140-144) -/

/-- Derived trend `trend = firstPrediction > currentPrice ? 'Bullish' : 'Bearish'`, where
`firstPrediction = preds[0] ?? currentPrice`. -/
def derivedTrend (preds : List ℚ) (currentPrice : ℚ) : String :=
  if preds.headD currentPrice > currentPrice then "Bullish" else "Bearish"

/-! ### Indicator Engine (StockPrediction.jsx lines 73-104)

The period parameters are integers: the JavaScript guards compare the
array length against the raw period value, and `slice` accepts negative
arguments, so non-positive periods flow through the functions.  -/

/-- JavaScript `l.slice(start)` for a single JavaScript slice argument: a negative
start counts from the end (clamped at 0), a non-negative start drops that
many elements. -/
def jsSliceFrom (start : ℤ) (l : List ℚ) : List ℚ :=
  if start < 0 then l.drop (l.length - (-start).toNat)
  else l.drop start.toNat

/-- JavaScript `l.slice(0, stop)` for an end argument: a negative stop
counts from the end (clamped at 0). -/
def jsSliceUpTo (stop : ℤ) (l : List ℚ) : List ℚ :=
  if stop < 0 then l.take (l.length - (-stop).toNat)
  else l.take stop.toNat

/-- Function `computeSMA` (StockPrediction.jsx lines 73-78): mean of
`values.slice(-period)`, `null` when `values.length < period`. -/
def computeSMA (values : List ℚ) (period : ℤ) : Option ℚ :=
  if (values.length : ℤ) < period then none
  else some ((jsSliceFrom (-period) values).sum / (period : ℚ))

/-- Function `computeEMA` (StockPrediction.jsx lines 80-88): seed is the mean of
`values.slice(0, period)`, then `ema = v*k + ema*(1-k)` over the remaining
values with `k = 2/(period+1)`; `null` when `values.length < period`.
For `period < 0` the JavaScript loop reads out-of-range indices and the
produced number is NaN; only the presence of a numeric result is relied
upon in that regime. -/
def computeEMA (values : List ℚ) (period : ℤ) : Option ℚ :=
  if (values.length : ℤ) < period then none
  else
    let k : ℚ := 2 / ((period : ℚ) + 1)
    let seed : ℚ := (jsSliceUpTo period values).sum / (period : ℚ)
    some ((values.drop period.toNat).foldl (fun ema v => v * k + ema * (1 - k)) seed)

/-- MACD: `macd = ema12 != null && ema26 != null ? ema12 - ema26 : null`
(StockPrediction.jsx lines 154-156). -/
def macdOf (values : List ℚ) : Option ℚ :=
  match computeEMA values 12, computeEMA values 26 with
  | some ema12, some ema26 => some (ema12 - ema26)
  | _, _ => none

/-- The window of values read by the RSI loop: the loop indexes
`values[i-1], values[i]` for `i` from `length - period` to `length - 1`,
i.e. the last `period + 1` values. -/
def rsiWindow (values : List ℚ) (period : ℤ) : List ℚ :=
  values.drop (((values.length : ℤ) - (period + 1)).toNat)

/-- The consecutive differences accumulated by the RSI loop. -/
def rsiDiffs (values : List ℚ) (period : ℤ) : List ℚ :=
  let w := rsiWindow values period
  (w.zip w.tail).map (fun q => q.2 - q.1)

/-- Accumulated `gains`: sum of the differences with `diff >= 0`. -/
def gainsOf (values : List ℚ) (period : ℤ) : ℚ :=
  ((rsiDiffs values period).filter (fun d => decide (0 ≤ d))).sum

/-- Accumulated `losses`: sum of `Math.abs(diff)` over the differences with `diff < 0`. -/
def lossesOf (values : List ℚ) (period : ℤ) : ℚ :=
  (((rsiDiffs values period).filter (fun d => decide (d < 0))).map (fun d => |d|)).sum

/-- Average gain `avgGain = gains / period`. -/
def avgGainOf (values : List ℚ) (period : ℤ) : ℚ :=
  gainsOf values period / (period : ℚ)

/-- Average loss `avgLoss = losses / period`. -/
def avgLossOf (values : List ℚ) (period : ℤ) : ℚ :=
  lossesOf values period / (period : ℚ)

/-- Function `computeRSI` (StockPrediction.jsx lines 90-104): `null` when
`values.length < period + 1`; `100` when `avgLoss === 0`; otherwise
`100 - 100/(1 + avgGain/avgLoss)`. -/
def computeRSI (values : List ℚ) (period : ℤ) : Option ℚ :=
  if (values.length : ℤ) < period + 1 then none
  else if avgLossOf values period = 0 then some 100
  else some (100 - 100 / (1 + avgGainOf values period / avgLossOf values period))

/-! ### Prediction Orchestrator: confidence (StockPrediction.jsx lines 159-167)

`Math.sqrt` forces the value into the reals; the mean and variance of the
predicted sequence stay rational. -/

/-- Mean of the predicted sequence: `preds.reduce((a,b) => a+b, 0) / preds.length`. -/
def meanOf (l : List ℚ) : ℚ := l.sum / (l.length : ℚ)

/-- Population variance of the predicted sequence:
`preds.reduce((sum,p) => sum + (p-avg)**2, 0) / preds.length`. -/
def varianceOf (l : List ℚ) : ℚ :=
  (l.map (fun p => (p - meanOf l) ^ 2)).sum / (l.length : ℚ)

/-- The confidence heuristic: when there is at least one prediction and a
positive current price, `max(50, min(95, 100 - sqrt(variance)/currentPrice*100))`;
otherwise 50. -/
noncomputable def confidenceOf (preds : List ℚ) (currentPrice : ℚ) : ℝ :=
  if 0 < preds.length ∧ 0 < currentPrice then
    max 50 (min 95 (100 - Real.sqrt ((varianceOf preds : ℚ) : ℝ) / (currentPrice : ℝ) * 100))
  else 50

/-- The Dashboard panel variant of the confidence computation
(PredictionPanel.jsx lines 33-37): the same clamp expression, computed
without any guard on the number of predictions or the sign of the current
price.  With zero predictions the JavaScript value is NaN (0/0 propagates
through the clamp), which has no rational counterpart, so statements about
this function are confined to non-empty prediction sequences, where the
JavaScript arithmetic is real-valued and matched exactly. -/
noncomputable def panelConfidenceOf (preds : List ℚ) (currentPrice : ℚ) : ℝ :=
  max 50 (min 95 (100 - Real.sqrt ((varianceOf preds : ℚ) : ℝ) / (currentPrice : ℝ) * 100))

/-! ### Alert Synthesizer (Alerts.jsx) -/

/-- The three alert signal types built by `loadAlerts`. -/
inductive AlertType
  | price
  | sentiment
  | prediction
  deriving DecidableEq

/-- Alert severity tiers. -/
inductive Severity
  | high
  | medium
  | low
  deriving DecidableEq

/-- The alert record, restricted to the fields the synthesis, ordering and
gating logic inspects (`id`, `type`, `severity`, `stock`, `read`). -/
structure Alert where
  id : ℕ
  type : AlertType
  severity : Severity
  stock : String
  read : Bool
  deriving DecidableEq

/-- Function `severityFromPct` (Alerts.jsx lines 58-62). -/
def severityFromPct (pctAbs : ℚ) : Severity :=
  if 2 ≤ pctAbs then .high
  else if 1 ≤ pctAbs then .medium
  else .low

/-- The notification settings read from local storage (Alerts.jsx lines 70-77). -/
structure NotificationSettings where
  emailAlerts : Bool
  priceAlerts : Bool
  sentimentAlerts : Bool
  predictionAlerts : Bool
  newsAlerts : Bool
  weeklyReport : Bool
  deriving DecidableEq

/-- The default notification settings used when none are stored. -/
def defaultNotificationSettings : NotificationSettings :=
  { emailAlerts := true, priceAlerts := true, sentimentAlerts := true
    predictionAlerts := true, newsAlerts := false, weeklyReport := true }

/-- One price alert (Alerts.jsx lines 107-129): `pct` is the percent change
from the previous close (0 when `prevClose ≤ 0`), severity from `|pct|`. -/
def priceAlertFor (sym : String) (latestClose prevClose : ℚ) (i : ℕ) : Alert :=
  let pct : ℚ := if 0 < prevClose then (latestClose - prevClose) / prevClose * 100 else 0
  { id := i, type := .price, severity := severityFromPct |pct|, stock := sym, read := false }

/-- One sentiment alert (Alerts.jsx lines 137-161): emitted only when
`score >= 0.62 || score <= 0.38`; severity high when `score <= 0.38`,
medium otherwise. -/
def sentimentAlertFor (sym : String) (score : ℚ) (i : ℕ) : Option Alert :=
  if 0.62 ≤ score ∨ score ≤ 0.38 then
    some { id := i, type := .sentiment
           severity := if score ≤ 0.38 then .high else .medium
           stock := sym, read := false }
  else none

/-- The percent change used by prediction alerts (Alerts.jsx line 176):
`current > 0 ? ((p1 - current) / current) * 100 : 0`. -/
def predPct (current p1 : ℚ) : ℚ :=
  if 0 < current then (p1 - current) / current * 100 else 0

/-- The direction label of a prediction alert (Alerts.jsx line 177):
`pct >= 0 ? 'Bullish' : 'Bearish'`. -/
def predDirection (current p1 : ℚ) : String :=
  if 0 ≤ predPct current p1 then "Bullish" else "Bearish"

/-- The direction word in the prediction alert message (Alerts.jsx line 186):
`pct >= 0 ? 'up' : 'down'`. -/
def predMsgDirection (current p1 : ℚ) : String :=
  if 0 ≤ predPct current p1 then "up" else "down"

/-- One prediction alert (Alerts.jsx lines 164-190). -/
def predictionAlertFor (sym : String) (current p1 : ℚ) (i : ℕ) : Alert :=
  { id := i, type := .prediction
    severity := severityFromPct |predPct current p1|
    stock := sym, read := false }

/-- The price alerts built for a batch of symbols, with the running id
counter incremented per alert. -/
def buildPriceAlerts : List (String × ℚ × ℚ) → ℕ → List Alert
  | [], _ => []
  | (sym, latest, prev) :: rest, i =>
    priceAlertFor sym latest prev i :: buildPriceAlerts rest (i + 1)

/-- The sentiment alerts built for a batch: the id counter advances only
when an alert is actually pushed. -/
def buildSentimentAlerts : List (String × ℚ) → ℕ → List Alert
  | [], _ => []
  | (sym, score) :: rest, i =>
    match sentimentAlertFor sym score i with
    | some a => a :: buildSentimentAlerts rest (i + 1)
    | none => buildSentimentAlerts rest i

/-- The prediction alerts built for a batch of symbols. -/
def buildPredictionAlerts : List (String × ℚ × ℚ) → ℕ → List Alert
  | [], _ => []
  | (sym, current, p1) :: rest, i =>
    predictionAlertFor sym current p1 i :: buildPredictionAlerts rest (i + 1)

/-! ### Alert ordering (Alerts.jsx lines 196-201) -/

/-- Severity rank table `sevRank = { high: 0, medium: 1, low: 2 }`. -/
def sevRank (s : Severity) : ℤ :=
  match s with
  | .high => 0
  | .medium => 1
  | .low => 2

/-- The sort comparator: unread before read, then by severity rank, then
by descending id (`b.id - a.id`). -/
def alertCmp (a b : Alert) : ℤ :=
  if a.read ≠ b.read then (if a.read then 1 else -1)
  else if sevRank a.severity - sevRank b.severity ≠ 0 then
    sevRank a.severity - sevRank b.severity
  else (b.id : ℤ) - (a.id : ℤ)

/-- Relation: `a` may come before `b` under the comparator. -/
def alertLE (a b : Alert) : Prop := alertCmp a b ≤ 0

instance : DecidableRel alertLE :=
  fun a b => inferInstanceAs (Decidable (alertCmp a b ≤ 0))

/-- Sorting `built.sort(comparator)`: modelled as a comparator-consistent stable sort. -/
def sortAlerts (l : List Alert) : List Alert := List.insertionSort alertLE l

/-- The ordering contract: every adjacent-or-later pair respects the comparator. -/
def alertsSorted (l : List Alert) : Prop := l.Pairwise alertLE

instance (l : List Alert) : Decidable (alertsSorted l) :=
  inferInstanceAs (Decidable (l.Pairwise alertLE))

/-- Function `markAsRead` (Alerts.jsx lines 226-230): flips the `read` flag of the
matching alert in place; the list is not re-sorted. -/
def markAsRead (i : ℕ) (l : List Alert) : List Alert :=
  l.map (fun a => if a.id = i then { a with read := true } else a)

/-- Function `deleteAlert` (Alerts.jsx lines 236-238): removes the matching alert. -/
def deleteAlert (i : ℕ) (l : List Alert) : List Alert :=
  l.filter (fun a => a.id != i)

/-- Function `loadAlerts` synthesis (Alerts.jsx lines 64-203): each signal type is
built only when its gate is open — price on `ns.priceAlerts`, sentiment on
`ns.sentimentAlerts || ns.newsAlerts`, prediction on `ns.predictionAlerts` —
and the combined batch is sorted by the comparator. -/
def synthesizeAlerts (ns : NotificationSettings) (priceData : List (String × ℚ × ℚ))
    (sentData : List (String × ℚ)) (predData : List (String × ℚ × ℚ))
    (baseId : ℕ) : List Alert :=
  let p := if ns.priceAlerts then buildPriceAlerts priceData baseId else []
  let s := if ns.sentimentAlerts || ns.newsAlerts then
    buildSentimentAlerts sentData (baseId + p.length) else []
  let q := if ns.predictionAlerts then
    buildPredictionAlerts predData (baseId + p.length + s.length) else []
  sortAlerts (p ++ s ++ q)

/-! ## Helper lemmas -/

/-- The comparator is antisymmetric under argument swap. -/
theorem alertCmp_swap (a b : Alert) : alertCmp b a = -alertCmp a b := by
  rcases a with ⟨ia, ta, sa, ka, ra⟩
  rcases b with ⟨ib, tb, sb, kb, rb⟩
  cases ra <;> cases rb <;> cases sa <;> cases sb <;>
    simp [alertCmp, sevRank]

instance : IsTotal Alert alertLE where
  total := by
    intro a b
    have h := alertCmp_swap a b
    unfold alertLE
    omega

instance : IsTrans Alert alertLE where
  trans := by
    intro a b c hab hbc
    rcases a with ⟨ia, ta, sa, ka, ra⟩
    rcases b with ⟨ib, tb, sb, kb, rb⟩
    rcases c with ⟨ic, tc, sc, kc, rc⟩
    unfold alertLE alertCmp at *
    cases ra <;> cases rb <;> cases rc <;> cases sa <;> cases sb <;> cases sc <;>
      simp_all [sevRank] <;> omega

/-- Every alert produced by the price builder carries the price type. -/
theorem mem_buildPriceAlerts {a : Alert} :
    ∀ (xs : List (String × ℚ × ℚ)) (i : ℕ), a ∈ buildPriceAlerts xs i →
      a.type = AlertType.price := by
  intro xs
  induction xs with
  | nil => intro i h; simp [buildPriceAlerts] at h
  | cons x rest ih =>
    intro i h
    rcases x with ⟨sym, latest, prev⟩
    rw [buildPriceAlerts, List.mem_cons] at h
    rcases h with h | h
    · subst h; rfl
    · exact ih (i + 1) h

/-- An emitted sentiment alert carries the sentiment type. -/
theorem sentimentAlertFor_type {sym : String} {score : ℚ} {i : ℕ} {a : Alert}
    (h : sentimentAlertFor sym score i = some a) : a.type = AlertType.sentiment := by
  unfold sentimentAlertFor at h
  split at h
  · cases h; rfl
  · cases h

/-- Every alert produced by the sentiment builder carries the sentiment type. -/
theorem mem_buildSentimentAlerts {a : Alert} :
    ∀ (xs : List (String × ℚ)) (i : ℕ), a ∈ buildSentimentAlerts xs i →
      a.type = AlertType.sentiment := by
  intro xs
  induction xs with
  | nil => intro i h; simp [buildSentimentAlerts] at h
  | cons x rest ih =>
    intro i h
    rcases x with ⟨sym, score⟩
    rw [buildSentimentAlerts] at h
    rcases hs : sentimentAlertFor sym score i with _ | b
    · rw [hs] at h
      exact ih i h
    · rw [hs] at h
      rw [List.mem_cons] at h
      rcases h with h | h
      · subst h; exact sentimentAlertFor_type hs
      · exact ih (i + 1) h

/-- Every alert produced by the prediction builder carries the prediction type. -/
theorem mem_buildPredictionAlerts {a : Alert} :
    ∀ (xs : List (String × ℚ × ℚ)) (i : ℕ), a ∈ buildPredictionAlerts xs i →
      a.type = AlertType.prediction := by
  intro xs
  induction xs with
  | nil => intro i h; simp [buildPredictionAlerts] at h
  | cons x rest ih =>
    intro i h
    rcases x with ⟨sym, current, p1⟩
    rw [buildPredictionAlerts, List.mem_cons] at h
    rcases h with h | h
    · subst h; rfl
    · exact ih (i + 1) h

/-- The population variance of any sequence is nonnegative. -/
theorem variance_nonneg (l : List ℚ) : 0 ≤ varianceOf l := by
  unfold varianceOf
  apply div_nonneg
  · apply List.sum_nonneg
    intro x hx
    rw [List.mem_map] at hx
    rcases hx with ⟨p, _, rfl⟩
    positivity
  · positivity

/-- The accumulated gains are nonnegative. -/
theorem gainsOf_nonneg (values : List ℚ) (period : ℤ) : 0 ≤ gainsOf values period := by
  unfold gainsOf
  apply List.sum_nonneg
  intro x hx
  rw [List.mem_filter] at hx
  exact of_decide_eq_true hx.2

/-- The accumulated losses are nonnegative. -/
theorem lossesOf_nonneg (values : List ℚ) (period : ℤ) : 0 ≤ lossesOf values period := by
  unfold lossesOf
  apply List.sum_nonneg
  intro x hx
  rw [List.mem_map] at hx
  rcases hx with ⟨d, _, rfl⟩
  exact abs_nonneg d

/-! ## Claim theorems -/

/-- Claim C1: the resolved horizon comes from the timeframe table
`1D->1, 3D->3, 1W->7, 2W->14, 1M->30` and is then clamped per model family:
TIMESNET is exactly 3 for every timeframe, TRANSFORMER is
`min(3, max(1, requested))` and hence always in `[1,3]`, and every other
family keeps the table value unmodified. -/
theorem horizon_resolution :
    (getPredictionLengthForTimeframe .d1 = 1 ∧ getPredictionLengthForTimeframe .d3 = 3 ∧
     getPredictionLengthForTimeframe .w1 = 7 ∧ getPredictionLengthForTimeframe .w2 = 14 ∧
     getPredictionLengthForTimeframe .m1 = 30) ∧
    (∀ tf, resolveHorizon .timesnet tf = 3) ∧
    (∀ tf, resolveHorizon .transformer tf =
        min 3 (max 1 (getPredictionLengthForTimeframe tf)) ∧
      1 ≤ resolveHorizon .transformer tf ∧ resolveHorizon .transformer tf ≤ 3) ∧
    (∀ tf m, m ≠ ModelType.timesnet → m ≠ ModelType.transformer →
      resolveHorizon m tf = getPredictionLengthForTimeframe tf) := by
  refine ⟨by decide, by intro tf; cases tf <;> rfl,
    by intro tf; cases tf <;> exact ⟨rfl, by decide, by decide⟩, ?_⟩
  intro tf m h1 h2
  cases m <;> first | rfl | exact absurd rfl h1 | exact absurd rfl h2

/-- Witness for C1: LSTM keeps the 1W table value. -/
theorem horizon_resolution_check :
    resolveHorizon ModelType.lstm Timeframe.w1 = getPredictionLengthForTimeframe Timeframe.w1 :=
  horizon_resolution.2.2.2 Timeframe.w1 ModelType.lstm (by decide) (by decide)

/-- Counterexample for C2: the Dashboard panel computes the confidence
clamp unguarded, so at the negative current price -1 with predictions
`[2, 4]` it evaluates to 95, not the claimed default of 50. -/
theorem panel_confidence_negative_price :
    panelConfidenceOf [(2 : ℚ), 4] (-1) = 95 ∧ (95 : ℝ) ≠ 50 := by
  constructor
  · have hv : varianceOf [(2 : ℚ), 4] = 1 := by norm_num [varianceOf, meanOf]
    unfold panelConfidenceOf
    rw [hv]
    push_cast
    rw [Real.sqrt_one]
    norm_num
  · norm_num

/-- Claim C2 (amended): in the orchestrator the confidence heuristic always
lands in `[50, 95]` (the population variance is nonnegative for every
sequence) and is exactly 50 whenever there are zero predictions or the
current price is nonpositive; the Dashboard panel computes the same clamp
without that guard, so for every non-empty prediction sequence and
negative current price it evaluates to 95 rather than 50. -/
theorem confidence_bounds (preds : List ℚ) (cp : ℚ) :
    0 ≤ varianceOf preds ∧
    50 ≤ confidenceOf preds cp ∧ confidenceOf preds cp ≤ 95 ∧
    ((preds = [] ∨ cp ≤ 0) → confidenceOf preds cp = 50) ∧
    (preds ≠ [] → cp < 0 → panelConfidenceOf preds cp = 95) := by
  have horch : 50 ≤ confidenceOf preds cp ∧ confidenceOf preds cp ≤ 95 ∧
      ((preds = [] ∨ cp ≤ 0) → confidenceOf preds cp = 50) := by
    unfold confidenceOf
    split_ifs with h
    · refine ⟨le_max_left _ _, ?_, ?_⟩
      · exact max_le (by norm_num) (min_le_left _ _)
      · intro hd
        rcases hd with hd | hd
        · rw [hd] at h
          simp at h
        · exact absurd h.2 (not_lt.mpr hd)
    · exact ⟨by norm_num, by norm_num, fun _ => rfl⟩
  have hpanel : preds ≠ [] → cp < 0 → panelConfidenceOf preds cp = 95 := by
    intro _ hcp
    unfold panelConfidenceOf
    have hsqrt : 0 ≤ Real.sqrt ((varianceOf preds : ℚ) : ℝ) := Real.sqrt_nonneg _
    have hcpr : ((cp : ℝ)) < 0 := by exact_mod_cast hcp
    have hterm : Real.sqrt ((varianceOf preds : ℚ) : ℝ) / (cp : ℝ) * 100 ≤ 0 := by
      apply mul_nonpos_of_nonpos_of_nonneg
      · exact div_nonpos_of_nonneg_of_nonpos hsqrt hcpr.le
      · norm_num
    have hmin :
        min (95 : ℝ) (100 - Real.sqrt ((varianceOf preds : ℚ) : ℝ) / (cp : ℝ) * 100) = 95 :=
      min_eq_left (by linarith)
    rw [hmin]
    exact max_eq_right (by norm_num)
  exact ⟨variance_nonneg preds, horch.1, horch.2.1, horch.2.2, hpanel⟩

/-- Witness for C2: with no predictions the orchestrator confidence
defaults to 50, and the panel variant gives 95 at a negative price. -/
theorem confidence_bounds_check :
    confidenceOf [] 1 = 50 ∧ panelConfidenceOf [(2 : ℚ), 4] (-1) = 95 :=
  ⟨(confidence_bounds [] 1).2.2.2.1 (Or.inl rfl),
   (confidence_bounds [(2 : ℚ), 4] (-1)).2.2.2.2 (by simp) (by norm_num)⟩

/-- Claim C3: the derived trend is Bullish if and only if the first
prediction strictly exceeds the current price; in particular a first
prediction equal to the current price classifies as Bearish. -/
theorem trend_rule (p cp : ℚ) (rest : List ℚ) :
    (derivedTrend (p :: rest) cp = "Bullish" ↔ p > cp) ∧
    derivedTrend (cp :: rest) cp = "Bearish" := by
  constructor
  · by_cases h : p > cp
    · simp [derivedTrend, h]
    · simp [derivedTrend, h]
  · simp [derivedTrend]

/-- Claim C4: with fewer than `period + 1` values the RSI is absent; with a
positive period and at least `period + 1` values it returns a value in
`[0, 100]`, and the value is exactly 100 if and only if the average loss
over the last `period` consecutive differences is 0. -/
theorem rsi_range (values : List ℚ) (period : ℤ) :
    ((values.length : ℤ) < period + 1 → computeRSI values period = none) ∧
    (1 ≤ period → period + 1 ≤ (values.length : ℤ) →
      ∃ r, computeRSI values period = some r ∧ 0 ≤ r ∧ r ≤ 100 ∧
        (r = 100 ↔ avgLossOf values period = 0)) := by
  constructor
  · intro h
    rw [computeRSI, if_pos h]
  · intro hp hlen
    have hguard : ¬ ((values.length : ℤ) < period + 1) := not_lt.mpr hlen
    have hpq : (0 : ℚ) < (period : ℚ) := by exact_mod_cast hp.trans_lt' (by norm_num)
    by_cases hz : avgLossOf values period = 0
    · refine ⟨100, ?_, by norm_num, le_refl 100, by simp [hz]⟩
      rw [computeRSI, if_neg hguard, if_pos hz]
    · have hlosspos : 0 < avgLossOf values period := by
        have h0 : 0 ≤ avgLossOf values period :=
          div_nonneg (lossesOf_nonneg values period) hpq.le
        exact lt_of_le_of_ne h0 (Ne.symm hz)
      have hgain : 0 ≤ avgGainOf values period :=
        div_nonneg (gainsOf_nonneg values period) hpq.le
      have hrs : 0 ≤ avgGainOf values period / avgLossOf values period :=
        div_nonneg hgain hlosspos.le
      have h1 : (0 : ℚ) < 1 + avgGainOf values period / avgLossOf values period := by
        linarith
      have hfrac_pos : 0 < 100 / (1 + avgGainOf values period / avgLossOf values period) :=
        div_pos (by norm_num) h1
      have hfrac_le : 100 / (1 + avgGainOf values period / avgLossOf values period) ≤ 100 :=
        div_le_self (by norm_num) (by linarith)
      refine ⟨100 - 100 / (1 + avgGainOf values period / avgLossOf values period),
        ?_, by linarith, by linarith, ?_⟩
      · rw [computeRSI, if_neg hguard, if_neg hz]
      · constructor
        · intro heq
          exfalso
          linarith
        · intro hzz
          exact absurd hzz hz

/-- Witness for C4: fifteen strictly increasing closes have zero average
loss, so the RSI is 100 (the worked example of the specification). -/
theorem rsi_range_check :
    ∃ r, computeRSI [(100 : ℚ), 101, 102, 103, 104, 105, 106, 107, 108, 109, 110, 111,
        112, 113, 114] 14 = some r ∧ 0 ≤ r ∧ r ≤ 100 ∧
      (r = 100 ↔ avgLossOf [(100 : ℚ), 101, 102, 103, 104, 105, 106, 107, 108, 109, 110,
        111, 112, 113, 114] 14 = 0) :=
  (rsi_range _ 14).2 (by norm_num) (by norm_num)

/-- Claim C5: a series shorter than the period makes SMA and EMA absent,
and the MACD is absent whenever either of its EMA operands is absent; an
absent indicator is an `Option.none`, never a number. -/
theorem indicators_absent :
    (∀ (values : List ℚ) (p : ℤ), (values.length : ℤ) < p →
      computeSMA values p = none ∧ computeEMA values p = none) ∧
    (∀ values : List ℚ, computeEMA values 12 = none ∨ computeEMA values 26 = none →
      macdOf values = none) := by
  constructor
  · intro values p h
    constructor
    · rw [computeSMA, if_pos h]
    · rw [computeEMA, if_pos h]
  · intro values h
    rcases h with h | h <;> simp [macdOf, h]

/-- Witness for C5: a one-element series with period 2 has no SMA, no EMA
and no MACD. -/
theorem indicators_absent_check :
    computeSMA [(1 : ℚ)] 2 = none ∧ computeEMA [(1 : ℚ)] 2 = none ∧
      macdOf [(1 : ℚ)] = none :=
  ⟨(indicators_absent.1 [(1 : ℚ)] 2 (by norm_num)).1,
   (indicators_absent.1 [(1 : ℚ)] 2 (by norm_num)).2,
   indicators_absent.2 [(1 : ℚ)] (Or.inl ((indicators_absent.1 [(1 : ℚ)] 12 (by norm_num)).2))⟩

/-- Claim C6: a sentiment alert is emitted only when
`score >= 0.62 || score <= 0.38`, and an emitted alert has severity high
when `score <= 0.38` and medium otherwise; no alert is emitted strictly
inside the band `(0.38, 0.62)`. -/
theorem sentiment_alert_band (sym : String) (score : ℚ) (i : ℕ) :
    (∀ a, sentimentAlertFor sym score i = some a →
      (0.62 ≤ score ∨ score ≤ 0.38) ∧
        a.severity = (if score ≤ 0.38 then Severity.high else Severity.medium)) ∧
    (0.38 < score → score < 0.62 → sentimentAlertFor sym score i = none) := by
  constructor
  · intro a ha
    unfold sentimentAlertFor at ha
    split at ha
    · cases ha
      exact ⟨by assumption, rfl⟩
    · cases ha
  · intro h1 h2
    rw [sentimentAlertFor, if_neg]
    push_neg
    constructor
    · linarith
    · linarith

/-- Witness for C6: a 0.2 score emits a high-severity alert. -/
theorem sentiment_alert_band_check :
    ((0.62 : ℚ) ≤ 0.2 ∨ (0.2 : ℚ) ≤ 0.38) ∧
      (Alert.mk 0 .sentiment .high "AAPL" false).severity =
        (if (0.2 : ℚ) ≤ 0.38 then Severity.high else Severity.medium) :=
  (sentiment_alert_band "AAPL" 0.2 0).1 (Alert.mk 0 .sentiment .high "AAPL" false)
    (by norm_num [sentimentAlertFor])

/-- Counterexample for C7: marking the high-severity unread alert of a
sorted two-alert list as read leaves it in front of an unread alert, so
the unread-before-read ordering no longer holds — `markAsRead` does not
re-sort. -/
theorem markAsRead_breaks_order :
    ¬ alertsSorted (markAsRead 2
      (sortAlerts [Alert.mk 2 .price .high "A" false, Alert.mk 1 .price .low "B" false])) := by
  decide

/-- Claim C7 (amended): the freshly synthesized alert list is totally
ordered by the comparator (unread before read, then severity rank, then
descending id), and deleting an alert preserves that ordering; marking an
alert as read rewrites the flag in place without re-sorting, so the
ordering need not survive a read operation. -/
theorem alert_order_invariant (l : List Alert) :
    alertsSorted (sortAlerts l) ∧
      ∀ i : ℕ, alertsSorted l → alertsSorted (deleteAlert i l) := by
  constructor
  · exact List.sorted_insertionSort alertLE l
  · intro i h
    exact List.Pairwise.sublist (List.filter_sublist l) h

/-- Witness for C7: deleting from a sorted singleton keeps it sorted. -/
theorem alert_order_invariant_check :
    alertsSorted (deleteAlert 1 [Alert.mk 1 .price .high "A" false]) :=
  (alert_order_invariant [Alert.mk 1 .price .high "A" false]).2 1 (by decide)

/-- Counterexample for C8: with `sentimentAlerts = false` but
`newsAlerts = true`, the synthesis run still emits a sentiment alert —
another preference flag can enable sentiment generation. -/
theorem sentiment_gate_crossflag :
    (∃ a ∈ synthesizeAlerts ⟨true, false, false, false, true, true⟩ [] [("AAPL", 0.2)] [] 0,
      a.type = AlertType.sentiment) ∧
    NotificationSettings.sentimentAlerts ⟨true, false, false, false, true, true⟩ = false := by
  have h : synthesizeAlerts ⟨true, false, false, false, true, true⟩ [] [("AAPL", 0.2)] [] 0 =
      [⟨0, .sentiment, .high, "AAPL", false⟩] := by
    norm_num [synthesizeAlerts, buildSentimentAlerts, sentimentAlertFor, sortAlerts]
  rw [h]
  exact ⟨⟨⟨0, .sentiment, .high, "AAPL", false⟩, List.mem_singleton.mpr rfl, rfl⟩, rfl⟩

/-- Claim C8 (amended): price and prediction alerts are generated only when
their own preference flags are set, while sentiment alerts are gated by
`sentimentAlerts || newsAlerts`: no sentiment alert is generated when both
of those flags are false, but `newsAlerts` alone can enable sentiment
generation. -/
theorem alert_gating (ns : NotificationSettings) (pd : List (String × ℚ × ℚ))
    (sd : List (String × ℚ)) (qd : List (String × ℚ × ℚ)) (base : ℕ) :
    (ns.priceAlerts = false →
      ∀ a ∈ synthesizeAlerts ns pd sd qd base, a.type ≠ AlertType.price) ∧
    (ns.sentimentAlerts = false → ns.newsAlerts = false →
      ∀ a ∈ synthesizeAlerts ns pd sd qd base, a.type ≠ AlertType.sentiment) ∧
    (ns.predictionAlerts = false →
      ∀ a ∈ synthesizeAlerts ns pd sd qd base, a.type ≠ AlertType.prediction) := by
  have hmem : ∀ a ∈ synthesizeAlerts ns pd sd qd base,
      (ns.priceAlerts = true ∧ a.type = AlertType.price) ∨
      ((ns.sentimentAlerts || ns.newsAlerts) = true ∧ a.type = AlertType.sentiment) ∨
      (ns.predictionAlerts = true ∧ a.type = AlertType.prediction) := by
    intro a ha
    unfold synthesizeAlerts at ha
    rw [sortAlerts, List.mem_insertionSort] at ha
    simp only [List.mem_append] at ha
    rcases ha with (ha | ha) | ha
    · split at ha
      · exact Or.inl ⟨by assumption, mem_buildPriceAlerts _ _ ha⟩
      · simp at ha
    · split at ha
      · exact Or.inr (Or.inl ⟨by assumption, mem_buildSentimentAlerts _ _ ha⟩)
      · simp at ha
    · split at ha
      · exact Or.inr (Or.inr ⟨by assumption, mem_buildPredictionAlerts _ _ ha⟩)
      · simp at ha
  refine ⟨?_, ?_, ?_⟩
  · intro hp a ha htype
    rcases hmem a ha with ⟨h1, _⟩ | ⟨_, h2⟩ | ⟨_, h2⟩
    · rw [hp] at h1; cases h1
    · rw [htype] at h2; cases h2
    · rw [htype] at h2; cases h2
  · intro hs hn a ha htype
    rcases hmem a ha with ⟨_, h2⟩ | ⟨h1, _⟩ | ⟨_, h2⟩
    · rw [htype] at h2; cases h2
    · rw [hs, hn] at h1; cases h1
    · rw [htype] at h2; cases h2
  · intro hq a ha htype
    rcases hmem a ha with ⟨_, h2⟩ | ⟨_, h2⟩ | ⟨h1, _⟩
    · rw [htype] at h2; cases h2
    · rw [htype] at h2; cases h2
    · rw [hq] at h1; cases h1

/-- Witness for C8: with the price flag off, the prediction alert emitted
for a flat forecast is not a price alert. -/
theorem alert_gating_check :
    (Alert.mk 0 .prediction .low "Y" false).type ≠ AlertType.price :=
  (alert_gating ⟨true, false, false, true, false, true⟩ [] [] [("Y", 1, 1)] 0).1 rfl
    (Alert.mk 0 .prediction .low "Y" false)
    (by norm_num [synthesizeAlerts, buildPredictionAlerts, predictionAlertFor, predPct,
      severityFromPct, sortAlerts])

/-- Counterexample for C9: `computeSMA` does not reject a non-positive
period; at period -1 it happily returns the JavaScript slice-and-average
result `sum([2,3]) / (-1) = -5`. -/
theorem sma_negative_period_value :
    computeSMA [(1 : ℚ), 2, 3] (-1) = some (-5) := by
  norm_num [computeSMA, jsSliceFrom]

/-- Claim C9 (amended): none of the indicator functions validates the
period; for every non-positive period and non-empty series the length
guards pass and each function returns a result instead of rejecting, and
for every strictly negative period the RSI is exactly 100: the difference
loop never runs, the accumulated losses are 0, and the zero-average-loss
branch fires. -/
theorem no_period_validation (values : List ℚ) (p : ℤ) (hp : p ≤ 0) (hv : values ≠ []) :
    (computeSMA values p).isSome ∧ (computeEMA values p).isSome ∧
      (computeRSI values p).isSome ∧ (p < 0 → computeRSI values p = some 100) := by
  have hlen : 0 < values.length := List.length_pos.mpr hv
  have h1 : ¬ ((values.length : ℤ) < p) := by
    push_neg
    omega
  have h2 : ¬ ((values.length : ℤ) < p + 1) := by
    push_neg
    omega
  refine ⟨?_, ?_, ?_, ?_⟩
  · rw [computeSMA, if_neg h1]; rfl
  · rw [computeEMA, if_neg h1]; rfl
  · rw [computeRSI]
    rw [if_neg h2]
    split <;> rfl
  · intro hneg
    have hw : rsiWindow values p = [] := by
      unfold rsiWindow
      apply List.drop_eq_nil_of_le
      omega
    have hd : rsiDiffs values p = [] := by
      simp [rsiDiffs, hw]
    have hl : avgLossOf values p = 0 := by
      unfold avgLossOf lossesOf
      rw [hd]
      simp
    rw [computeRSI, if_neg h2, if_pos hl]

/-- Witness for C9 (amended): all three indicators return a value for
period -1 on a three-element series, and the RSI value is 100. -/
theorem no_period_validation_check :
    (computeSMA [(1 : ℚ), 2, 3] (-1)).isSome ∧ (computeEMA [(1 : ℚ), 2, 3] (-1)).isSome ∧
      (computeRSI [(1 : ℚ), 2, 3] (-1)).isSome ∧
      computeRSI [(1 : ℚ), 2, 3] (-1) = some 100 :=
  ⟨(no_period_validation [(1 : ℚ), 2, 3] (-1) (by norm_num) (by simp)).1,
   (no_period_validation [(1 : ℚ), 2, 3] (-1) (by norm_num) (by simp)).2.1,
   (no_period_validation [(1 : ℚ), 2, 3] (-1) (by norm_num) (by simp)).2.2.1,
   (no_period_validation [(1 : ℚ), 2, 3] (-1) (by norm_num) (by simp)).2.2.2 (by norm_num)⟩

/-- Claim C10: the prediction-alert direction rule is `pct >= 0`: a 1-step
forecast equal to the current price yields a Bullish label, an up message
word and low severity, while the orchestrator's trend rule classifies the
same equality as Bearish. -/
theorem prediction_alert_boundary (current p1 : ℚ) (sym : String) (i : ℕ)
    (h : p1 = current) :
    predDirection current p1 = "Bullish" ∧ predMsgDirection current p1 = "up" ∧
    (predictionAlertFor sym current p1 i).severity = Severity.low ∧
    derivedTrend [p1] current = "Bearish" := by
  subst h
  have hpct : predPct p1 p1 = 0 := by
    unfold predPct
    split <;> simp
  refine ⟨?_, ?_, ?_, ?_⟩
  · rw [predDirection, if_pos (le_of_eq hpct.symm)]
  · rw [predMsgDirection, if_pos (le_of_eq hpct.symm)]
  · show severityFromPct |predPct p1 p1| = Severity.low
    rw [hpct]
    norm_num [severityFromPct]
  · simp [derivedTrend]

/-- Witness for C10: a forecast of 100 against a current price of 100. -/
theorem prediction_alert_boundary_check :
    predDirection 100 100 = "Bullish" ∧ predMsgDirection 100 100 = "up" ∧
    (predictionAlertFor "AAPL" 100 100 0).severity = Severity.low ∧
    derivedTrend [(100 : ℚ)] 100 = "Bearish" :=
  prediction_alert_boundary 100 100 "AAPL" 0 rfl

end FinTrend
